import Mathlib

/-!
Verification development for the Scout GPS Studio receiver-facing core
(`src-tauri/src`).  The Rust modules are shallowly embedded:

* machine integers (`u8`, `u16`, `u32`, `u64`) become `Nat`, with `% 2^w`
  written exactly where the Rust code truncates or wraps;
* `f32`/`f64` quantities become `ℚ` (the claims under study only copy,
  compare and divide these values; no rounding-sensitive property is
  stated);
* `Instant` timestamps become `Nat` seconds passed explicitly as a `now`
  parameter, with `Instant::elapsed` / `duration_since` becoming truncated
  subtraction (both are non-negative in Rust);
* Rust `String`s that the code inspects byte-wise (`UBX` payloads) become
  `List Nat` byte lists, and strings inspected char-wise (NMEA lines)
  become `List Char`; display-only strings stay `String`;
* fallible operations return `Except`/`Option`.

Each section names the Rust source file and function it embeds.
-/

namespace ScoutGps

/-! ## `test_criteria.rs` — acceptance test engine -/

/-- Embeds `TestCriteria` (`test_criteria.rs`).  `f32` thresholds become
`ℚ`, unsigned integers become `Nat`. -/
structure TestCriteria where
  minSatellites : Nat
  maxHdop : ℚ
  maxPdop : ℚ
  minAvgSnr : ℚ
  minStrongSatellites : Nat
  maxTtffSeconds : Nat
  minConstellations : Nat
  minFixQuality : Nat
  stabilityDurationSeconds : Nat
  deriving Repr, DecidableEq

/-- Embeds `impl Default for TestCriteria`. -/
def defaultCriteria : TestCriteria :=
  { minSatellites := 6
    maxHdop := 2
    maxPdop := 3
    minAvgSnr := 25
    minStrongSatellites := 4
    maxTtffSeconds := 60
    minConstellations := 2
    minFixQuality := 1
    stabilityDurationSeconds := 10 }

/-- Embeds `CriterionResult` (`test_criteria.rs`).  The `expected` and
`actual` fields of the Rust struct are display-only text produced by
`format!`; they carry no program logic (the code itself documents `passed`
as the truth value) and are not modelled. -/
structure CriterionResult where
  name : String
  passed : Bool
  deriving Repr, DecidableEq

/-- Embeds `TestVerdict` (`test_criteria.rs`). -/
inductive TestVerdict where
  | pass
  | fail
  | running
  | notStarted
  | timedOut
  deriving Repr, DecidableEq

/-- Embeds `SatelliteInfo` (`nmea.rs`). -/
structure SatelliteInfo where
  prn : Nat
  elevation : Option ℚ
  azimuth : Option ℚ
  snr : Option ℚ
  constellation : String
  deriving Repr, DecidableEq

/-- Embeds `GpsData` (`nmea.rs`); every field optional except the
satellite list, mirroring the Rust struct. -/
structure GpsData where
  latitude : Option ℚ := none
  longitude : Option ℚ := none
  speedKnots : Option ℚ := none
  course : Option ℚ := none
  heading : Option ℚ := none
  altitude : Option ℚ := none
  fixQuality : Option Nat := none
  satellites : Option Nat := none
  hdop : Option ℚ := none
  vdop : Option ℚ := none
  pdop : Option ℚ := none
  timestamp : Option String := none
  fixType : Option String := none
  satellitesInfo : List SatelliteInfo := []
  deriving Repr, DecidableEq

/-- Embeds `DeviceInfo` (`test_criteria.rs`). -/
structure DeviceInfo where
  portName : String
  portType : String
  manufacturer : Option String
  product : Option String
  serialNumber : Option String
  deriving Repr, DecidableEq

/-- Embeds the `TestRunner` state (`test_criteria.rs`).  `Instant` fields
become `Nat` seconds. -/
structure TestRunner where
  criteria : TestCriteria
  startTime : Option Nat
  firstFixTime : Option Nat
  stableSince : Option Nat
  verdict : TestVerdict
  deviceInfo : DeviceInfo
  lastCriteriaResults : List CriterionResult
  bestSatellites : Nat
  deriving Repr, DecidableEq

/-- Embeds `calc_avg_snr` (`test_criteria.rs`): average over satellites
with a present, strictly positive SNR; `0` when none. -/
def calcAvgSnr (satellites : List SatelliteInfo) : ℚ :=
  let withSnr := (satellites.filterMap (fun s => s.snr)).filter (fun x => 0 < x)
  if withSnr = [] then 0 else withSnr.sum / withSnr.length

/-- Embeds `TestRunner::elapsed_seconds`: elapsed time since test start,
`0` when the test never started. -/
def elapsedSeconds (s : TestRunner) (now : Nat) : Nat :=
  match s.startTime with
  | some t => now - t
  | none => 0

/-- Embeds `TestRunner::ttff_seconds` on explicit fields. -/
def ttffSeconds (startTime firstFixTime : Option Nat) : Option Nat :=
  match startTime, firstFixTime with
  | some st, some ft => some (ft - st)
  | _, _ => none

/-- Embeds the eight `CriterionResult` records pushed by
`TestRunner::evaluate`, in source order.  `firstFix` is the (already
updated) `first_fix_time` and `hasFix` the `has_fix` local of the Rust
code. -/
def evalCriteria (c : TestCriteria) (startTime firstFix : Option Nat)
    (hasFix : Bool) (data : GpsData) : List CriterionResult :=
  let satCount := data.satellites.getD 0
  let hdopPass := match data.hdop with
    | some h => h ≤ c.maxHdop
    | none => false
  let pdopPass := match data.pdop with
    | some p => p ≤ c.maxPdop
    | none => false
  let avgSnr := calcAvgSnr data.satellitesInfo
  let strong := data.satellitesInfo.countP (fun s => 30 ≤ s.snr.getD 0)
  let constellations := (data.satellitesInfo.map (fun s => s.constellation)).dedup
  let ttff := ttffSeconds startTime firstFix
  let ttffPass := match ttff with
    | some t => t ≤ c.maxTtffSeconds
    | none => false
  [ { name := "Satellite Count", passed := c.minSatellites ≤ satCount }
  , { name := "HDOP", passed := hdopPass }
  , { name := "PDOP", passed := pdopPass }
  , { name := "Average SNR", passed := c.minAvgSnr ≤ avgSnr }
  , { name := "Strong Sats (SNR>=30)", passed := c.minStrongSatellites ≤ strong }
  , { name := "Constellations", passed := c.minConstellations ≤ constellations.length }
  , { name := "Fix Quality", passed := hasFix }
  , { name := "Time to First Fix", passed := ttffPass || firstFix.isSome } ]

/-- Embeds the stability-window block of `TestRunner::evaluate`
(lines 238–259): on all-pass, start the timer when unset and promote to
`pass` once stable long enough; otherwise clear the timer.  Returns the
new `stable_since` and verdict. -/
def stepStability (c : TestCriteria) (now : Nat) (stableSince : Option Nat)
    (verdict : TestVerdict) (allPass : Bool) : Option Nat × TestVerdict :=
  if allPass then
    let ss := if stableSince.isSome then stableSince else some now
    match ss with
    | some stableStart =>
        (ss, if c.stabilityDurationSeconds ≤ now - stableStart then TestVerdict.pass
             else verdict)
    | none => (ss, verdict)
  else (none, verdict)

/-- Embeds the total-timeout block of `TestRunner::evaluate`
(lines 261–271): past `3·max_ttff + stability_duration`, force
`timed-out` (no fix yet) or `fail`. -/
def applyTimeout (c : TestCriteria) (elapsed : Nat) (firstFix : Option Nat)
    (verdict : TestVerdict) : TestVerdict :=
  if 3 * c.maxTtffSeconds + c.stabilityDurationSeconds < elapsed then
    if firstFix = none then TestVerdict.timedOut else TestVerdict.fail
  else verdict

/-- Embeds `TestRunner::evaluate` (`test_criteria.rs`, lines 132–275).
Returns the updated runner and the criteria results; a non-`running`
verdict short-circuits with the stored results. -/
def evaluate (s : TestRunner) (now : Nat) (data : GpsData) :
    TestRunner × List CriterionResult :=
  if s.verdict = TestVerdict.running then
    let hasFix := s.criteria.minFixQuality ≤ data.fixQuality.getD 0
    let firstFix := if hasFix && s.firstFixTime.isNone then some now else s.firstFixTime
    let satCount := data.satellites.getD 0
    let best := if s.bestSatellites < satCount then satCount else s.bestSatellites
    let results := evalCriteria s.criteria s.startTime firstFix hasFix data
    let allPass := results.all (fun r => r.passed)
    let sv := stepStability s.criteria now s.stableSince s.verdict allPass
    let verdict := applyTimeout s.criteria (elapsedSeconds s now) firstFix sv.2
    ({ s with firstFixTime := firstFix
              bestSatellites := best
              stableSince := sv.1
              verdict := verdict
              lastCriteriaResults := results }, results)
  else (s, s.lastCriteriaResults)

/-! ## `gps.rs` — serial port probing, reader merge, ring buffer, status -/

/-- Generic contiguous-subsequence test; embeds Rust `str::contains` with
a string pattern (byte/char-level substring search; for the ASCII
patterns used by this program the two coincide). -/
def containsSeq {α : Type} [DecidableEq α] (l pat : List α) : Bool :=
  l.tails.any (fun t => pat.isPrefixOf t)

/-- Embeds Rust `str::trim` on a char list (Rust trims Unicode
whitespace; the characters this program meets are covered by
`Char.isWhitespace`). -/
def trimChars (l : List Char) : List Char :=
  ((l.dropWhile Char.isWhitespace).reverse.dropWhile Char.isWhitespace).reverse

/-- One result of `BufReader::read_line` inside `GpsManager::test_port`:
end of stream, a read error, or a line of characters. -/
inductive ReadEvent where
  | eof
  | err
  | line (chars : List Char)
  deriving Repr, DecidableEq

/-- The per-line predicate of `GpsManager::test_port` (`gps.rs`,
lines 270–275): the trimmed line starts with `$` and contains one of the
talker identifiers `GP`, `GN`, `GL`. -/
def lineMatches (l : List Char) : Bool :=
  let trimmed := trimChars l
  (trimmed.head? = some '$') &&
    (containsSeq trimmed "GP".toList || containsSeq trimmed "GN".toList ||
      containsSeq trimmed "GL".toList)

/-- Embeds the `for _ in 0..10` loop of `GpsManager::test_port`
(`gps.rs`, lines 265–286): `fuel` counts remaining iterations, `cnt` is
`nmea_count`; EOF, a read error or an exhausted event list breaks the
loop, whose fall-through returns `Ok(nmea_count > 0)`. -/
def testPortGo : List ReadEvent → Nat → Nat → Bool
  | _, 0, cnt => decide (0 < cnt)
  | [], _ + 1, cnt => decide (0 < cnt)
  | ReadEvent.eof :: _, _ + 1, cnt => decide (0 < cnt)
  | ReadEvent.err :: _, _ + 1, cnt => decide (0 < cnt)
  | ReadEvent.line l :: rest, fuel + 1, cnt =>
      if lineMatches l then
        if 2 ≤ cnt + 1 then true else testPortGo rest fuel (cnt + 1)
      else testPortGo rest fuel cnt

/-- The read phase of `GpsManager::test_port` after a successful open. -/
def testPortReads (events : List ReadEvent) : Bool :=
  testPortGo events 10 0

/-- Embeds `GpsManager::test_port` (`gps.rs`, lines 256–287): the port
open is modelled by `openOk`; an open failure is the only error path. -/
def testPort (openOk : Bool) (events : List ReadEvent) : Except Unit Bool :=
  if openOk then Except.ok (testPortReads events) else Except.error ()

/-- Number of matching lines inside the window `test_port` examines:
up to `fuel` events, stopping at EOF, error or list end. -/
def windowMatches : List ReadEvent → Nat → Nat
  | _, 0 => 0
  | [], _ + 1 => 0
  | ReadEvent.eof :: _, _ + 1 => 0
  | ReadEvent.err :: _, _ + 1 => 0
  | ReadEvent.line l :: rest, fuel + 1 =>
      (if lineMatches l then 1 else 0) + windowMatches rest fuel

/-- Embeds `NMEA_BUFFER_SIZE` (`gps.rs`, line 178). -/
def NMEA_BUFFER_SIZE : Nat := 100

/-- Embeds the ring-buffer push of `GpsManager::read_from_serial`
(`gps.rs`, lines 436–442): at capacity, `buffer.remove(0)` evicts the
oldest entry before the push. -/
def pushNmea (buffer : List String) (s : String) : List String :=
  (if NMEA_BUFFER_SIZE ≤ buffer.length then buffer.drop 1 else buffer) ++ [s]

/-- An operation on the raw-sentence ring: a reader-thread push or a
`clear_nmea_buffer` call. -/
inductive BufferOp where
  | push (s : String)
  | clear

/-- Apply one ring-buffer operation. -/
def applyBufferOp (buffer : List String) : BufferOp → List String
  | BufferOp.push s => pushNmea buffer s
  | BufferOp.clear => []

/-- Apply a sequence of ring-buffer operations, oldest first. -/
def applyBufferOps (ops : List BufferOp) (buffer : List String) : List String :=
  ops.foldl applyBufferOp buffer

/-- Embeds the cumulative-observation merge of
`GpsManager::read_from_serial` (`gps.rs`, lines 447–460): field-wise
adopt-new-if-present; the satellite list is replaced only when the
incoming list is non-empty.  (`NmeaParser::parse_batch`, `nmea.rs`
lines 135–148, applies the same rule.) -/
def mergeGpsData (data newData : GpsData) : GpsData :=
  { latitude := if newData.latitude.isSome then newData.latitude else data.latitude
    longitude := if newData.longitude.isSome then newData.longitude else data.longitude
    speedKnots := if newData.speedKnots.isSome then newData.speedKnots else data.speedKnots
    course := if newData.course.isSome then newData.course else data.course
    heading := if newData.heading.isSome then newData.heading else data.heading
    altitude := if newData.altitude.isSome then newData.altitude else data.altitude
    fixQuality := if newData.fixQuality.isSome then newData.fixQuality else data.fixQuality
    satellites := if newData.satellites.isSome then newData.satellites else data.satellites
    hdop := if newData.hdop.isSome then newData.hdop else data.hdop
    vdop := if newData.vdop.isSome then newData.vdop else data.vdop
    pdop := if newData.pdop.isSome then newData.pdop else data.pdop
    timestamp := if newData.timestamp.isSome then newData.timestamp else data.timestamp
    fixType := if newData.fixType.isSome then newData.fixType else data.fixType
    satellitesInfo := if newData.satellitesInfo ≠ [] then newData.satellitesInfo
                      else data.satellitesInfo }

/-- Embeds `GpsConnectionStatus` (`gps.rs`). -/
inductive GpsConnectionStatus where
  | disconnected
  | connecting
  | connected
  | receivingData
  | error
  deriving Repr, DecidableEq

/-- Embeds `GpsSourceStatus` (`gps.rs`). -/
structure GpsSourceStatus where
  portName : Option String
  status : GpsConnectionStatus
  lastError : Option String
  sentencesReceived : Nat
  lastFixTime : Option String
  deriving Repr, DecidableEq

/-- Embeds `impl Default for GpsSourceStatus`. -/
def defaultGpsSourceStatus : GpsSourceStatus :=
  { portName := none
    status := GpsConnectionStatus.disconnected
    lastError := none
    sentencesReceived := 0
    lastFixTime := none }

/-- Embeds the status update performed by `GpsManager::connect`
(`gps.rs`, lines 338–344). -/
def connectStatusUpdate (st : GpsSourceStatus) (portName : String) : GpsSourceStatus :=
  { st with portName := some portName
            status := GpsConnectionStatus.connecting
            lastError := none
            sentencesReceived := 0 }

/-- Embeds the status update performed by `GpsManager::disconnect`
(`gps.rs`, lines 387–389): only the `status` field changes; the stored
port name is kept. -/
def disconnectStatus (st : GpsSourceStatus) : GpsSourceStatus :=
  { st with status := GpsConnectionStatus.disconnected }

/-- Embeds `DetectedPort` (`gps.rs`). -/
structure DetectedPort where
  portName : String
  portType : String
  manufacturer : Option String
  product : Option String
  serialNumber : Option String
  isLikelyGps : Bool
  deriving Repr, DecidableEq

/-! ## `commands.rs` — `start_test` -/

/-- Embeds the guard and device-info capture of `start_test`
(`commands.rs`, lines 123–168).  `ports` is the result of
`GpsManager::list_serial_ports` (`none` models its error branch).  The
command errs exactly on the `status.port_name == None` check; otherwise
it captures the device under test. -/
def startTestDeviceInfo (status : GpsSourceStatus)
    (ports : Option (List DetectedPort)) : Except String DeviceInfo :=
  match status.portName with
  | none => Except.error "No GPS connected. Connect a GPS device first."
  | some portName =>
      Except.ok <|
        match ports with
        | some ps =>
            match ps.find? (fun p => p.portName = portName) with
            | some p =>
                { portName := p.portName
                  portType := p.portType
                  manufacturer := p.manufacturer
                  product := p.product
                  serialNumber := p.serialNumber }
            | none =>
                { portName := portName, portType := "Unknown"
                  manufacturer := none, product := none, serialNumber := none }
        | none =>
            { portName := portName, portType := "Unknown"
              manufacturer := none, product := none, serialNumber := none }

/-! ## UBX helpers duplicated in `gps.rs` (lines 17–43) -/

namespace GpsSerial

/-- Embeds the private `ubx_checksum` of `gps.rs` (lines 17–25):
Fletcher checksum with `u8` wrapping addition, modelled as `% 256`. -/
def ubxChecksum (data : List Nat) : Nat × Nat :=
  data.foldl
    (fun ck byte =>
      let ckA := (ck.1 + byte) % 256
      (ckA, (ck.2 + ckA) % 256))
    (0, 0)

/-- Embeds the private `build_ubx_message` of `gps.rs` (lines 28–43):
sync chars, class, id, little-endian `u16` length, payload, checksum
over everything after the sync chars. -/
def buildUbxMessage (cls id : Nat) (payload : List Nat) : List Nat :=
  let len := payload.length % 65536
  let body := cls :: id :: (len % 256) :: ((len / 256) % 256) :: payload
  let ck := ubxChecksum body
  0xB5 :: 0x62 :: body ++ [ck.1, ck.2]

end GpsSerial

/-! ## `ubx_config.rs` — UBX codec, MON-VER parser, command catalog -/

namespace UbxCfg

/-- Embeds `UBX_SYNC_1`. -/
def UBX_SYNC_1 : Nat := 0xB5
/-- Embeds `UBX_SYNC_2`. -/
def UBX_SYNC_2 : Nat := 0x62
/-- Embeds `UBX_CLASS_CFG`. -/
def UBX_CLASS_CFG : Nat := 0x06
/-- Embeds `UBX_CLASS_MON`. -/
def UBX_CLASS_MON : Nat := 0x0A
/-- Embeds `UBX_MON_VER`. -/
def UBX_MON_VER : Nat := 0x04
/-- Embeds `UBX_CFG_GNSS`. -/
def UBX_CFG_GNSS : Nat := 0x3E
/-- Embeds `UBX_CFG_NAV5`. -/
def UBX_CFG_NAV5 : Nat := 0x24
/-- Embeds `UBX_CFG_RATE`. -/
def UBX_CFG_RATE : Nat := 0x08
/-- Embeds `UBX_CFG_SBAS`. -/
def UBX_CFG_SBAS : Nat := 0x16
/-- Embeds `UBX_CFG_MSG`. -/
def UBX_CFG_MSG : Nat := 0x01
/-- Embeds `UBX_CFG_NMEA`. -/
def UBX_CFG_NMEA : Nat := 0x17
/-- Embeds `UBX_CFG_CFG`. -/
def UBX_CFG_CFG : Nat := 0x09
/-- Embeds `NMEA_GGA`. -/
def NMEA_GGA : Nat := 0x00
/-- Embeds `NMEA_GLL`. -/
def NMEA_GLL : Nat := 0x01
/-- Embeds `NMEA_GSA`. -/
def NMEA_GSA : Nat := 0x02
/-- Embeds `NMEA_GSV`. -/
def NMEA_GSV : Nat := 0x03
/-- Embeds `NMEA_RMC`. -/
def NMEA_RMC : Nat := 0x04
/-- Embeds `NMEA_VTG`. -/
def NMEA_VTG : Nat := 0x05

/-- Embeds the public `ubx_checksum` of `ubx_config.rs` (lines 141–149). -/
def ubxChecksum (data : List Nat) : Nat × Nat :=
  data.foldl
    (fun ck byte =>
      let ckA := (ck.1 + byte) % 256
      (ckA, (ck.2 + ckA) % 256))
    (0, 0)

/-- Embeds the public `build_ubx_message` of `ubx_config.rs`
(lines 152–166). -/
def buildUbxMessage (cls id : Nat) (payload : List Nat) : List Nat :=
  let len := payload.length % 65536
  let body := cls :: id :: (len % 256) :: ((len / 256) % 256) :: payload
  let ck := ubxChecksum body
  UBX_SYNC_1 :: UBX_SYNC_2 :: body ++ [ck.1, ck.2]

/-- Embeds `UbloxSeries` (`ubx_config.rs`). -/
inductive UbloxSeries where
  | series7
  | series8
  | unknown
  deriving Repr, DecidableEq

/-- Embeds `UbloxChipInfo` (`ubx_config.rs`); the Rust `String` fields
are kept as the byte lists the parser actually inspects. -/
structure UbloxChipInfo where
  swVersion : List Nat
  hwVersion : List Nat
  extensions : List (List Nat)
  series : UbloxSeries
  chipName : List Nat
  deriving Repr, DecidableEq

/-- ASCII bytes of a Lean string literal; used to embed Rust string
literals appearing in byte-level comparisons. -/
def ascii (s : String) : List Nat :=
  s.toList.map Char.toNat

/-- Embeds `trim_end_matches('\0')` at the byte level. -/
def stripTrailingNuls (bs : List Nat) : List Nat :=
  (bs.reverse.dropWhile (fun b => b = 0)).reverse

/-- Embeds the extension-string loop of `parse_mon_ver`
(`ubx_config.rs`, lines 81–91) on the payload suffix after byte 40:
30-byte chunks, NUL-stripped, empty chunks skipped. -/
def parseExtensions (bs : List Nat) : List (List Nat) :=
  if _h : 30 ≤ bs.length then
    let ext := stripTrailingNuls (bs.take 30)
    (if ext ≠ [] then [ext] else []) ++ parseExtensions (bs.drop 30)
  else []
termination_by bs.length
decreasing_by
  simp only [List.length_drop]
  omega

/-- Embeds the chip-name refinement of `parse_mon_ver` for series-8
hardware (`ubx_config.rs`, lines 100–120): prefer a `MOD=` extension,
else infer the variant from the `FWVER=` prefix. -/
def series8ChipName (extensions : List (List Nat)) : List Nat :=
  match extensions.find? (fun e => (ascii "MOD=").isPrefixOf e) with
  | some e => e.drop (ascii "MOD=").length
  | none =>
      match extensions.find? (fun e => (ascii "FWVER=").isPrefixOf e) with
      | some fw =>
          let fwStr := fw.drop (ascii "FWVER=").length
          if (ascii "TIM").isPrefixOf fwStr then ascii "NEO-M8T"
          else if (ascii "HPG").isPrefixOf fwStr then ascii "NEO-M8P"
          else if (ascii "ADR").isPrefixOf fwStr then ascii "NEO-M8U"
          else ascii "u-blox M8"
      | none => ascii "u-blox M8"

/-- Embeds the series/chip-name inference of `parse_mon_ver`
(`ubx_config.rs`, lines 93–127): `G70`/`00070` hardware → series 7,
`M80`/`M8030`/`00080` → series 8, otherwise unknown. -/
def inferSeries (hwVersion : List Nat) (extensions : List (List Nat)) :
    UbloxSeries × List Nat :=
  if containsSeq hwVersion (ascii "G70") || (ascii "00070").isPrefixOf hwVersion then
    (UbloxSeries.series7, ascii "u-blox 7")
  else if containsSeq hwVersion (ascii "M80") || containsSeq hwVersion (ascii "M8030")
      || (ascii "00080").isPrefixOf hwVersion then
    (UbloxSeries.series8, series8ChipName extensions)
  else
    (UbloxSeries.unknown, ascii "u-blox (HW: " ++ hwVersion ++ ascii ")")

/-- Embeds `parse_mon_ver` (`ubx_config.rs`, lines 69–136) at the byte
level: fails below 40 bytes; splits software/hardware version; strips
NULs; partitions extensions; infers the series from the hardware
version. -/
def parseMonVer (payload : List Nat) : Option UbloxChipInfo :=
  if payload.length < 40 then none
  else
    let swVersion := stripTrailingNuls (payload.take 30)
    let hwVersion := stripTrailingNuls ((payload.drop 30).take 10)
    let extensions := parseExtensions (payload.drop 40)
    let sc := inferSeries hwVersion extensions
    some { swVersion := swVersion
           hwVersion := hwVersion
           extensions := extensions
           series := sc.1
           chipName := sc.2 }

/-- Embeds `build_mon_ver_poll`. -/
def buildMonVerPoll : List Nat :=
  buildUbxMessage UBX_CLASS_MON UBX_MON_VER []

/-- Embeds `build_cfg_gnss_series7_marine` (`ubx_config.rs`,
lines 178–191). -/
def buildCfgGnssSeries7Marine : List Nat :=
  let payload :=
    [0x00, 0x00, 0xFF, 0x02] ++
    [0x00, 0x08, 0x10, 0x00, 0x01, 0x00, 0x01, 0x01] ++
    [0x01, 0x01, 0x03, 0x00, 0x01, 0x00, 0x01, 0x01]
  buildUbxMessage UBX_CLASS_CFG UBX_CFG_GNSS payload

/-- Embeds `build_cfg_gnss_series8_marine` (`ubx_config.rs`,
lines 194–211). -/
def buildCfgGnssSeries8Marine : List Nat :=
  let payload :=
    [0x00, 0x00, 0xFF, 0x04] ++
    [0x00, 0x08, 0x10, 0x00, 0x01, 0x00, 0x01, 0x01] ++
    [0x01, 0x01, 0x03, 0x00, 0x01, 0x00, 0x01, 0x01] ++
    [0x02, 0x04, 0x08, 0x00, 0x01, 0x00, 0x01, 0x01] ++
    [0x06, 0x08, 0x0E, 0x00, 0x01, 0x00, 0x01, 0x01]
  buildUbxMessage UBX_CLASS_CFG UBX_CFG_GNSS payload

/-- Embeds `build_cfg_nav5_sea` (`ubx_config.rs`, lines 217–239). -/
def buildCfgNav5Sea : List Nat :=
  let payload :=
    [0x01, 0x00, 0x05, 0x03, 0x00, 0x00, 0x00, 0x00,
     0x10, 0x27, 0x00, 0x00, 0x05, 0x00, 0xFA, 0x00,
     0xFA, 0x00, 0x64, 0x00, 0x2C, 0x01, 0x00, 0x00,
     0x00, 0x00, 0x00, 0x00, 0x00, 0x00, 0x00, 0x00,
     0x00, 0x00, 0x00, 0x00]
  buildUbxMessage UBX_CLASS_CFG UBX_CFG_NAV5 payload

/-- Embeds `build_cfg_rate_1hz` (`ubx_config.rs`, lines 242–250). -/
def buildCfgRate1hz : List Nat :=
  buildUbxMessage UBX_CLASS_CFG UBX_CFG_RATE [0xE8, 0x03, 0x01, 0x00, 0x01, 0x00]

/-- Embeds `build_cfg_sbas_enable` (`ubx_config.rs`, lines 255–265). -/
def buildCfgSbasEnable : List Nat :=
  buildUbxMessage UBX_CLASS_CFG UBX_CFG_SBAS
    [0x01, 0x07, 0x03, 0x00, 0x00, 0x00, 0x00, 0x00]

/-- Embeds the private `build_cfg_msg` (`ubx_config.rs`, lines 270–274). -/
def buildCfgMsg (nmeaMsgId rate : Nat) : List Nat :=
  buildUbxMessage UBX_CLASS_CFG UBX_CFG_MSG
    [0xF0, nmeaMsgId, 0x00, rate, 0x00, rate, 0x00, 0x00]

/-- Embeds `build_nmea_message_config` (`ubx_config.rs`, lines 277–286). -/
def buildNmeaMessageConfig : List (List Nat) :=
  [ buildCfgMsg NMEA_GGA 1
  , buildCfgMsg NMEA_RMC 1
  , buildCfgMsg NMEA_VTG 1
  , buildCfgMsg NMEA_GSA 1
  , buildCfgMsg NMEA_GSV 1
  , buildCfgMsg NMEA_GLL 0 ]

/-- Embeds `build_cfg_nmea_extended` (`ubx_config.rs`, lines 289–294). -/
def buildCfgNmeaExtended : List Nat :=
  buildUbxMessage UBX_CLASS_CFG UBX_CFG_NMEA
    [0x00, 0x23, 0x00, 0x02, 0x00, 0x00, 0x00, 0x00, 0x00, 0x00, 0x00, 0x01]

/-- Embeds `build_cfg_save_all` (`ubx_config.rs`, lines 299–308). -/
def buildCfgSaveAll : List Nat :=
  buildUbxMessage UBX_CLASS_CFG UBX_CFG_CFG
    [0x00, 0x00, 0x00, 0x00, 0x1F, 0x1F, 0x00, 0x00,
     0x00, 0x00, 0x00, 0x00, 0x17]

/-- Embeds `get_optimization_commands` (`ubx_config.rs`, lines 314–344). -/
def getOptimizationCommands (series : UbloxSeries) : List (List Nat) :=
  let gnss :=
    match series with
    | UbloxSeries.series7 => buildCfgGnssSeries7Marine
    | UbloxSeries.series8 => buildCfgGnssSeries8Marine
    | UbloxSeries.unknown => buildCfgGnssSeries8Marine
  [gnss, buildCfgNav5Sea, buildCfgRate1hz, buildCfgSbasEnable, buildCfgNmeaExtended]
    ++ buildNmeaMessageConfig ++ [buildCfgSaveAll]

/-- Embeds `profile_name` (`ubx_config.rs`, lines 347–353). -/
def profileName (series : UbloxSeries) : String :=
  match series with
  | UbloxSeries.series7 => "Series 7 Marine (GPS + SBAS)"
  | UbloxSeries.series8 => "Series 8 Marine (GPS + GLONASS + Galileo + SBAS)"
  | UbloxSeries.unknown => "Generic Marine"

end UbxCfg

/-! ## `ubx_optimizer.rs` — before/after report -/

/-- Embeds `PerformanceSnapshot` (`ubx_optimizer.rs`); `f32` averages
become `ℚ`. -/
structure PerformanceSnapshot where
  avgHdop : ℚ
  avgSatellites : ℚ
  avgSnr : ℚ
  constellationCount : Nat
  constellations : List String
  avgFixQuality : ℚ
  sampleCount : Nat
  deriving Repr, DecidableEq

/-- Embeds `OptimizationReport` (`ubx_optimizer.rs`). -/
structure OptimizationReport where
  chipInfo : UbxCfg.UbloxChipInfo
  profileApplied : String
  before : PerformanceSnapshot
  after : PerformanceSnapshot
  hdopImprovementPct : ℚ
  satelliteImprovementPct : ℚ
  snrImprovementPct : ℚ
  constellationImprovement : ℤ
  timestamp : String
  deriving Repr, DecidableEq

/-- The placeholder chip identity `build_report` substitutes when none
was detected (`ubx_optimizer.rs`, lines 353–359). -/
def unknownChipInfo : UbxCfg.UbloxChipInfo :=
  { swVersion := UbxCfg.ascii "Unknown"
    hwVersion := UbxCfg.ascii "Unknown"
    extensions := []
    series := UbxCfg.UbloxSeries.unknown
    chipName := UbxCfg.ascii "Unknown" }

/-- Embeds `UbxOptimizer::build_report` (`ubx_optimizer.rs`,
lines 320–369).  `chipInfo` is the optimizer's `chip_info` field and
`timestamp` the wall-clock string the Rust code obtains from `chrono`.
Each improvement percentage divides by the `before` average only behind
a strict `> 0` guard. -/
def buildReport (chipInfo : Option UbxCfg.UbloxChipInfo)
    (before after : PerformanceSnapshot) (timestamp : String) :
    OptimizationReport :=
  let hdopImp :=
    if 0 < before.avgHdop then
      (before.avgHdop - after.avgHdop) / before.avgHdop * 100
    else 0
  let satImp :=
    if 0 < before.avgSatellites then
      (after.avgSatellites - before.avgSatellites) / before.avgSatellites * 100
    else 0
  let snrImp :=
    if 0 < before.avgSnr then
      (after.avgSnr - before.avgSnr) / before.avgSnr * 100
    else 0
  let constDelta := (after.constellationCount : ℤ) - (before.constellationCount : ℤ)
  let series := (chipInfo.map (fun c => c.series)).getD UbxCfg.UbloxSeries.unknown
  { chipInfo := chipInfo.getD unknownChipInfo
    profileApplied := UbxCfg.profileName series
    before := before
    after := after
    hdopImprovementPct := hdopImp
    satelliteImprovementPct := satImp
    snrImprovementPct := snrImp
    constellationImprovement := constDelta
    timestamp := timestamp }

/-! ## Specification-side definition for the series rules -/

/-- The series rules stated by the specification (§4.2): hardware version
contains `G70` or starts with `00070` (series 7), or contains `M80` or
`M8030` or starts with `00080` (series 8).  Stated independently of
`parseMonVer` so the parser's series field can be compared against it. -/
def seriesRules (hw : List Nat) : Bool :=
  containsSeq hw (UbxCfg.ascii "G70") || (UbxCfg.ascii "00070").isPrefixOf hw ||
  containsSeq hw (UbxCfg.ascii "M80") || containsSeq hw (UbxCfg.ascii "M8030") ||
  (UbxCfg.ascii "00080").isPrefixOf hw

/-! ## Concrete states and inputs used by counterexamples and witnesses -/

/-- A configured criteria record (every field of `TestCriteria` is
user-settable through `set_test_criteria`): thresholds relaxed to zero
except fix quality, TTFF and stability, so that satisfying observations
need no satellite list. -/
def relaxedCriteria : TestCriteria :=
  { minSatellites := 0
    maxHdop := 2
    maxPdop := 3
    minAvgSnr := 0
    minStrongSatellites := 0
    maxTtffSeconds := 60
    minConstellations := 0
    minFixQuality := 1
    stabilityDurationSeconds := 10 }

/-- An observation with a GPS fix and in-range DOP values. -/
def fixedObservation : GpsData :=
  { fixQuality := some 1
    satellites := some 7
    hdop := some 1
    pdop := some 2 }

/-- A device descriptor for concrete runner states. -/
def demoDevice : DeviceInfo :=
  { portName := "COM3", portType := "USB", manufacturer := none
    product := none, serialNumber := none }

/-- A runner immediately after `start()` at time 0 with
`relaxedCriteria`. -/
def runnerStarted : TestRunner :=
  { criteria := relaxedCriteria
    startTime := some 0
    firstFixTime := none
    stableSince := none
    verdict := TestVerdict.running
    deviceInfo := demoDevice
    lastCriteriaResults := []
    bestSatellites := 0 }

/-- The runner state reached from `runnerStarted` by one `evaluate` call
at t = 185 s with a satisfying observation: still running, stability
timer started at 185. -/
def runnerMid : TestRunner :=
  (evaluate runnerStarted 185 fixedObservation).1

/-- A running state whose stability window is already satisfied while
the total timeout is not yet reached (started at t = 100). -/
def runnerStable : TestRunner :=
  { criteria := relaxedCriteria
    startTime := some 100
    firstFixTime := some 110
    stableSince := some 185
    verdict := TestVerdict.running
    deviceInfo := demoDevice
    lastCriteriaResults := []
    bestSatellites := 7 }

/-- A runner in the terminal `pass` verdict with stored results. -/
def runnerDone : TestRunner :=
  { criteria := relaxedCriteria
    startTime := some 0
    firstFixTime := some 3
    stableSince := some 5
    verdict := TestVerdict.pass
    deviceInfo := demoDevice
    lastCriteriaResults := [{ name := "Satellite Count", passed := true }]
    bestSatellites := 9 }

/-- A probe read sequence containing exactly one NMEA-looking line. -/
def probeEvents : List ReadEvent :=
  [ReadEvent.line "$GPGGA,092750.000,5321.6802,N".toList]

/-- A MON-VER payload shorter than 40 bytes. -/
def monVerShort : List Nat := List.replicate 30 0

/-- A 40-byte MON-VER payload whose hardware version is `00080000`
(a series-8 receiver). -/
def monVerM8 : List Nat :=
  UbxCfg.ascii "SW" ++ List.replicate 28 0 ++ UbxCfg.ascii "00080000" ++ [0, 0]

/-- The connection status after `connect("COM3")` followed by
`disconnect()`: state `disconnected`, port name retained. -/
def statusAfterDisconnect : GpsSourceStatus :=
  disconnectStatus (connectStatusUpdate defaultGpsSourceStatus "COM3")

/-- An all-zero performance snapshot (what `MetricsCollector::snapshot`
produces from no samples). -/
def zeroSnapshot : PerformanceSnapshot :=
  { avgHdop := 0, avgSatellites := 0, avgSnr := 0, constellationCount := 0
    constellations := [], avgFixQuality := 0, sampleCount := 0 }

/-- A raw-sentence ring at full capacity. -/
def fullRing : List String := List.replicate 100 "$GPGGA"

/-! ## Supporting lemmas -/

/-- The probe loop returns `true` exactly when the running count plus
the matches remaining in the window is positive (the loop's early
return at two matches does not change this, since one suffices to make
the fall-through `nmea_count > 0` succeed). -/
theorem testPortGo_eq_true_iff (events : List ReadEvent) (fuel cnt : Nat) :
    testPortGo events fuel cnt = true ↔ 0 < cnt + windowMatches events fuel := by
  induction events generalizing fuel cnt with
  | nil => cases fuel <;> simp [testPortGo, windowMatches]
  | cons e rest ih =>
      cases fuel with
      | zero => simp [testPortGo, windowMatches]
      | succ n =>
          cases e with
          | eof => simp [testPortGo, windowMatches]
          | err => simp [testPortGo, windowMatches]
          | line l =>
              by_cases hm : lineMatches l = true
              · simp only [testPortGo, windowMatches, hm, if_true]
                by_cases h2 : 2 ≤ cnt + 1
                · simp only [h2, if_pos]
                  exact iff_of_true trivial (by omega)
                · simp only [h2, if_false, ih]
                  constructor <;> intro <;> omega
              · rw [Bool.not_eq_true] at hm
                simp only [testPortGo, windowMatches, hm, Bool.false_eq_true, if_false, ih]
                constructor <;> intro <;> omega

/-- The series inferred by `parse_mon_ver` is non-unknown exactly when
the hardware version satisfies the specification's series rules. -/
theorem inferSeries_ne_unknown (hw : List Nat) (ext : List (List Nat)) :
    (UbxCfg.inferSeries hw ext).1 ≠ UbxCfg.UbloxSeries.unknown ↔ seriesRules hw = true := by
  rw [UbxCfg.inferSeries, seriesRules]
  by_cases h7 : (containsSeq hw (UbxCfg.ascii "G70")
      || (UbxCfg.ascii "00070").isPrefixOf hw) = true
  · rw [if_pos h7]
    refine iff_of_true (by simp) ?_
    simp only [Bool.or_eq_true] at h7 ⊢
    tauto
  · rw [if_neg h7]
    by_cases h8 : (containsSeq hw (UbxCfg.ascii "M80")
        || containsSeq hw (UbxCfg.ascii "M8030")
        || (UbxCfg.ascii "00080").isPrefixOf hw) = true
    · rw [if_pos h8]
      refine iff_of_true (by simp) ?_
      simp only [Bool.or_eq_true] at h7 h8 ⊢
      tauto
    · rw [if_neg h8]
      refine iff_of_false (by simp) ?_
      simp only [Bool.or_eq_true] at h7 h8 ⊢
      tauto

/-- One ring-buffer operation preserves the capacity bound. -/
theorem bufferOp_preserves (buffer : List String) (op : BufferOp)
    (h : buffer.length ≤ NMEA_BUFFER_SIZE) :
    (applyBufferOp buffer op).length ≤ NMEA_BUFFER_SIZE := by
  cases op with
  | clear => simp [applyBufferOp]
  | push s =>
      simp only [applyBufferOp, pushNmea, NMEA_BUFFER_SIZE] at *
      split
      · simp only [List.length_append, List.length_drop, List.length_cons, List.length_nil]
        omega
      · simp only [List.length_append, List.length_cons, List.length_nil]
        omega

/-! ## Claim C1 -/

/-- C1 counterexample.  The claim asserts that an `evaluate` call on a
running runner where all eight criteria pass and
`now − stable_since ≥ stability_duration_seconds` ends with verdict
`pass`.  `runnerMid` is reachable: it is the state produced by one
`evaluate` call at t = 185 s on a freshly started runner (fix acquired
on that call, stability timer started at 185, verdict still running,
total timeout `3·60 + 10 = 190` not yet reached).  At t = 195 s all
eight criteria pass and the stability window (10 s) is satisfied, yet
the verdict after the call is `fail`, not `pass`: the total-timeout
check runs after the stability check and overwrites the just-assigned
`pass` because `elapsed = 195 > 190` and a first fix exists. -/
theorem evaluate_stable_pass_overridden_counterexample :
    (evaluate runnerMid 195 fixedObservation).2.all (fun r => r.passed) = true ∧
    runnerMid.verdict = TestVerdict.running ∧
    runnerMid.stableSince = some 185 ∧
    runnerMid.criteria.stabilityDurationSeconds ≤ 195 - 185 ∧
    (evaluate runnerMid 195 fixedObservation).1.verdict = TestVerdict.fail ∧
    (evaluate runnerMid 195 fixedObservation).1.verdict ≠ TestVerdict.pass := by
  decide

/-- C1 amended.  For a runner in state running, `evaluate` (a) starts
the stability timer at `now` when all eight criteria pass and it was
unset, (b) keeps it when all pass and it was set, (c) clears it when
any criterion fails, and (d) when all eight pass, the (post-call)
timer value `t` satisfies `now − t ≥ stability_duration_seconds`, and
the elapsed time does not exceed the total timeout
`3·max_ttff_seconds + stability_duration_seconds`, the verdict after
the call is `pass`. -/
theorem evaluate_stability_rules (s : TestRunner) (now : Nat) (data : GpsData)
    (hrun : s.verdict = TestVerdict.running) :
    ((evaluate s now data).2.all (fun r => r.passed) = true →
        (s.stableSince = none → (evaluate s now data).1.stableSince = some now) ∧
        (∀ t0, s.stableSince = some t0 → (evaluate s now data).1.stableSince = some t0)) ∧
    ((evaluate s now data).2.all (fun r => r.passed) = false →
        (evaluate s now data).1.stableSince = none) ∧
    (∀ t, (evaluate s now data).2.all (fun r => r.passed) = true →
        (evaluate s now data).1.stableSince = some t →
        s.criteria.stabilityDurationSeconds ≤ now - t →
        elapsedSeconds s now ≤ 3 * s.criteria.maxTtffSeconds + s.criteria.stabilityDurationSeconds →
        (evaluate s now data).1.verdict = TestVerdict.pass) := by
  refine ⟨?_, ?_, ?_⟩
  · intro hall
    simp only [evaluate, hrun, if_pos] at hall ⊢
    simp only [hall]
    constructor
    · intro hss
      simp [stepStability, hss]
    · intro t0 hss
      simp [stepStability, hss]
  · intro hall
    simp only [evaluate, hrun, if_pos] at hall ⊢
    simp only [hall]
    simp [stepStability]
  · intro t hall hss hstab helap
    simp only [evaluate, hrun, if_pos] at hall hss ⊢
    simp only [hall] at hss ⊢
    cases h0 : s.stableSince with
    | none =>
        simp only [stepStability, h0, if_pos, Option.isSome_none, Bool.false_eq_true,
          if_false] at hss ⊢
        injection hss with hnt
        subst hnt
        rw [if_pos hstab, applyTimeout, if_neg (Nat.not_lt.mpr helap)]
    | some t0 =>
        simp only [stepStability, h0, if_pos, Option.isSome_some, if_true] at hss ⊢
        injection hss with hnt
        subst hnt
        rw [if_pos hstab, applyTimeout, if_neg (Nat.not_lt.mpr helap)]

/-- C1 amended, witness: on `runnerStable` (running, stability timer at
185, started at 100) an `evaluate` at t = 195 with a satisfying
observation keeps the timer and yields verdict `pass`. -/
theorem evaluate_stability_rules_witness :
    (evaluate runnerStable 195 fixedObservation).1.stableSince = some 185 ∧
    (evaluate runnerStable 195 fixedObservation).1.verdict = TestVerdict.pass :=
  ⟨((evaluate_stability_rules runnerStable 195 fixedObservation rfl).1
      (by decide)).2 185 rfl,
   (evaluate_stability_rules runnerStable 195 fixedObservation rfl).2.2 185
      (by decide) (by decide) (by decide) (by decide)⟩

/-! ## Claim C2 -/

/-- C2.  Once the verdict is terminal (`pass`, `fail` or `timed-out`),
any further `evaluate` call, for every observation and time, leaves the
runner (hence its verdict and stored criteria results) unchanged and
returns the stored results. -/
theorem evaluate_terminal_idempotent (s : TestRunner) (now : Nat) (data : GpsData)
    (h : s.verdict = TestVerdict.pass ∨ s.verdict = TestVerdict.fail ∨
         s.verdict = TestVerdict.timedOut) :
    evaluate s now data = (s, s.lastCriteriaResults) := by
  rw [evaluate]
  rcases h with h | h | h <;> rw [h] <;> simp

/-- C2 witness: a runner in verdict `pass` is untouched by `evaluate`. -/
theorem evaluate_terminal_idempotent_witness :
    runnerDone.verdict = TestVerdict.pass ∧
    evaluate runnerDone 42 fixedObservation = (runnerDone, runnerDone.lastCriteriaResults) :=
  ⟨rfl, evaluate_terminal_idempotent runnerDone 42 fixedObservation (Or.inl rfl)⟩

/-! ## Claim C3 -/

/-- C3 counterexample.  The claim asserts `test_port` returns true only
when at least two lines start with `$` and carry a talker identifier.
On a stream holding exactly one such line `test_port` still returns
`Ok(true)`, because the loop's fall-through is `Ok(nmea_count > 0)`. -/
theorem testPort_single_line_counterexample :
    testPort true probeEvents = Except.ok true ∧
    windowMatches probeEvents 10 = 1 := by
  constructor
  · rfl
  · rfl

/-- C3 amended.  `test_port` errs only on open failure; on a
successful open it returns `Ok(b)` where `b` is true exactly when at
least ONE of the up-to-10 examined lines starts with `$` and contains
`GP`, `GN` or `GL` (it returns early once two such lines are seen, and
its fall-through accepts a single one via `nmea_count > 0`). -/
theorem testPort_true_iff_one_match (openOk : Bool) (events : List ReadEvent) :
    (openOk = false → testPort openOk events = Except.error ()) ∧
    (openOk = true → testPort openOk events = Except.ok (testPortReads events)) ∧
    (testPortReads events = true ↔ 0 < windowMatches events 10) := by
  refine ⟨?_, ?_, ?_⟩
  · intro h
    simp [testPort, h]
  · intro h
    simp [testPort, h]
  · rw [testPortReads, testPortGo_eq_true_iff]
    omega

/-- C3 amended, witness: a failed open errs; a successful open on the
single-matching-line stream returns `Ok` with the read result, and the
iff instantiates there. -/
theorem testPort_true_iff_one_match_witness :
    testPort false probeEvents = Except.error () ∧
    testPort true probeEvents = Except.ok (testPortReads probeEvents) ∧
    (testPortReads probeEvents = true ↔ 0 < windowMatches probeEvents 10) :=
  ⟨(testPort_true_iff_one_match false probeEvents).1 rfl,
   (testPort_true_iff_one_match true probeEvents).2.1 rfl,
   (testPort_true_iff_one_match true probeEvents).2.2⟩

/-! ## Claim C4 -/

/-- C4.  `parse_mon_ver` returns none for every payload shorter than 40
bytes; for every payload of at least 40 bytes it returns some chip info
whose series is non-unknown exactly when the NUL-stripped 10
hardware-version bytes satisfy the specification's series rules. -/
theorem parseMonVer_spec (payload : List Nat) :
    (payload.length < 40 → UbxCfg.parseMonVer payload = none) ∧
    (40 ≤ payload.length →
      ∃ info, UbxCfg.parseMonVer payload = some info ∧
        (info.series ≠ UbxCfg.UbloxSeries.unknown ↔
          seriesRules (UbxCfg.stripTrailingNuls ((payload.drop 30).take 10)) = true)) := by
  constructor
  · intro h
    simp [UbxCfg.parseMonVer, h]
  · intro h
    rw [UbxCfg.parseMonVer, if_neg (Nat.not_lt.mpr h)]
    exact ⟨_, rfl, inferSeries_ne_unknown _ _⟩

/-- C4 witness: a 30-byte payload parses to none; the 40-byte `00080000`
payload parses to a chip info satisfying the series iff. -/
theorem parseMonVer_spec_witness :
    (monVerShort.length < 40 ∧ UbxCfg.parseMonVer monVerShort = none) ∧
    (40 ≤ monVerM8.length ∧
      ∃ info, UbxCfg.parseMonVer monVerM8 = some info ∧
        (info.series ≠ UbxCfg.UbloxSeries.unknown ↔
          seriesRules (UbxCfg.stripTrailingNuls ((monVerM8.drop 30).take 10)) = true)) :=
  ⟨⟨by decide, (parseMonVer_spec monVerShort).1 (by decide)⟩,
   ⟨by decide, (parseMonVer_spec monVerM8).2 (by decide)⟩⟩

/-! ## Claim C5 -/

/-- C5.  For every series the optimization command list is non-empty
and its last element is the CFG-CFG save frame: byte 2 (the class) is
`0x06` and byte 3 (the id) is `0x09`. -/
theorem optimizationCommands_end_with_save (series : UbxCfg.UbloxSeries) :
    UbxCfg.getOptimizationCommands series ≠ [] ∧
    ∃ cmd, (UbxCfg.getOptimizationCommands series).getLast? = some cmd ∧
      cmd.get? 2 = some 0x06 ∧ cmd.get? 3 = some 0x09 := by
  cases series <;>
    exact ⟨by decide, UbxCfg.buildCfgSaveAll, by decide, by decide, by decide⟩

/-! ## Claim C6 -/

/-- C6 counterexample.  The claim asserts `start_test` fails with
"No GPS connected" in every state with no open port, including after a
disconnect.  After `connect("COM3")` then `disconnect()` the status is
`disconnected` (no port is open), yet `start_test` succeeds and
captures the stale port name, because `disconnect` leaves
`status.port_name` set and `start_test` checks only that field. -/
theorem startTest_after_disconnect_counterexample :
    statusAfterDisconnect.status = GpsConnectionStatus.disconnected ∧
    ∃ d, startTestDeviceInfo statusAfterDisconnect (some []) = Except.ok d ∧
      d.portName = "COM3" :=
  ⟨rfl, _, rfl, rfl⟩

/-- C6 amended.  `start_test` fails with "No GPS connected" exactly
when the status records no port name (which holds before any connect,
but not after a disconnect); whenever a port name `n` is recorded it
succeeds and captures a device descriptor whose port name is `n`. -/
theorem startTest_guard (st : GpsSourceStatus) (ports : Option (List DetectedPort)) :
    (startTestDeviceInfo st ports =
        Except.error "No GPS connected. Connect a GPS device first." ↔
      st.portName = none) ∧
    (∀ n, st.portName = some n →
      ∃ d, startTestDeviceInfo st ports = Except.ok d ∧ d.portName = n) := by
  cases hp : st.portName with
  | none =>
      constructor
      · simp [startTestDeviceInfo, hp]
      · intro n hn
        exact absurd hn (by simp)
  | some name =>
      constructor
      · rw [startTestDeviceInfo, hp]
        constructor
        · intro hcontra
          cases ports <;> simp_all
        · intro hcontra
          simp at hcontra
      · intro n hn
        injection hn with hn
        subst hn
        rw [startTestDeviceInfo, hp]
        cases ports with
        | none => exact ⟨_, rfl, rfl⟩
        | some ps =>
            cases hf : ps.find? (fun p => p.portName = name) with
            | none =>
                simp only [hf]
                exact ⟨_, rfl, rfl⟩
            | some p =>
                simp only [hf]
                refine ⟨_, rfl, ?_⟩
                have hpn := List.find?_some hf
                simpa using hpn

/-- C6 amended, witness: with no port name recorded `start_test` errs;
with port name `COM4` recorded it captures that name. -/
theorem startTest_guard_witness :
    startTestDeviceInfo defaultGpsSourceStatus none =
      Except.error "No GPS connected. Connect a GPS device first." ∧
    ∃ d, startTestDeviceInfo (connectStatusUpdate defaultGpsSourceStatus "COM4") none =
      Except.ok d ∧ d.portName = "COM4" :=
  ⟨(startTest_guard defaultGpsSourceStatus none).1.mpr rfl,
   (startTest_guard (connectStatusUpdate defaultGpsSourceStatus "COM4") none).2 "COM4" rfl⟩

/-! ## Claim C7 -/

/-- C7.  The cumulative-observation merge is idempotent: merging the
same partial observation twice yields the same cumulative record as
merging it once. -/
theorem mergeGpsData_idempotent (data newData : GpsData) :
    mergeGpsData (mergeGpsData data newData) newData = mergeGpsData data newData := by
  simp only [mergeGpsData, GpsData.mk.injEq]
  refine ⟨?_, ?_, ?_, ?_, ?_, ?_, ?_, ?_, ?_, ?_, ?_, ?_, ?_, ?_⟩ <;>
    split <;> simp_all

/-! ## Claim C8 -/

/-- C8.  In the optimization report, whenever a before average
(`avg_hdop`, `avg_satellites` or `avg_snr`) is zero, the corresponding
improvement percentage is 0: each division is behind a strict
`before > 0` guard. -/
theorem buildReport_zero_guard (ci : Option UbxCfg.UbloxChipInfo)
    (before after : PerformanceSnapshot) (ts : String) :
    (before.avgHdop = 0 → (buildReport ci before after ts).hdopImprovementPct = 0) ∧
    (before.avgSatellites = 0 →
      (buildReport ci before after ts).satelliteImprovementPct = 0) ∧
    (before.avgSnr = 0 → (buildReport ci before after ts).snrImprovementPct = 0) := by
  refine ⟨?_, ?_, ?_⟩ <;> intro h <;> simp [buildReport, h]

/-- C8 witness: a report built from all-zero before averages has zero
improvement percentages. -/
theorem buildReport_zero_guard_witness :
    zeroSnapshot.avgHdop = 0 ∧ zeroSnapshot.avgSatellites = 0 ∧ zeroSnapshot.avgSnr = 0 ∧
    (buildReport none zeroSnapshot zeroSnapshot "t").hdopImprovementPct = 0 ∧
    (buildReport none zeroSnapshot zeroSnapshot "t").satelliteImprovementPct = 0 ∧
    (buildReport none zeroSnapshot zeroSnapshot "t").snrImprovementPct = 0 :=
  ⟨rfl, rfl, rfl,
   (buildReport_zero_guard none zeroSnapshot zeroSnapshot "t").1 rfl,
   (buildReport_zero_guard none zeroSnapshot zeroSnapshot "t").2.1 rfl,
   (buildReport_zero_guard none zeroSnapshot zeroSnapshot "t").2.2 rfl⟩

/-! ## Claim C9 -/

/-- C9.  Starting from the empty ring, any sequence of push and clear
operations leaves at most 100 entries; and a push on a ring at exactly
capacity 100 evicts the oldest (head) entry before appending. -/
theorem nmea_ring_bounded_evicts_oldest :
    (∀ ops, (applyBufferOps ops []).length ≤ NMEA_BUFFER_SIZE) ∧
    (∀ (buffer : List String) (s : String), buffer.length = NMEA_BUFFER_SIZE →
      pushNmea buffer s = buffer.drop 1 ++ [s]) := by
  constructor
  · have hgen : ∀ (ops : List BufferOp) (buffer : List String),
        buffer.length ≤ NMEA_BUFFER_SIZE →
        (applyBufferOps ops buffer).length ≤ NMEA_BUFFER_SIZE := by
      intro ops
      induction ops with
      | nil =>
          intro buffer h
          simpa [applyBufferOps] using h
      | cons op rest ih =>
          intro buffer h
          exact ih _ (bufferOp_preserves _ _ h)
    intro ops
    exact hgen ops [] (by simp [NMEA_BUFFER_SIZE])
  · intro buffer s h
    rw [pushNmea, if_pos (le_of_eq h.symm)]

/-- C9 witness: a short operation sequence stays within the bound, and
a push on the 100-entry `fullRing` drops the head. -/
theorem nmea_ring_bounded_evicts_oldest_witness :
    (applyBufferOps [BufferOp.push "$GPRMC,1", BufferOp.clear, BufferOp.push "$GPGGA,2"]
        []).length ≤ NMEA_BUFFER_SIZE ∧
    fullRing.length = NMEA_BUFFER_SIZE ∧
    pushNmea fullRing "$GPVTG,3" = fullRing.drop 1 ++ ["$GPVTG,3"] :=
  ⟨nmea_ring_bounded_evicts_oldest.1 _, rfl,
   nmea_ring_bounded_evicts_oldest.2 fullRing "$GPVTG,3" rfl⟩

/-! ## Claim C10 -/

/-- C10.  The private UBX helpers in the GPS manager module compute the
same functions as the public ones in the UBX codec module: the two
checksum functions agree on every byte sequence, and the two message
builders agree on every class, id and payload. -/
theorem ubx_helpers_equivalent :
    (∀ data, GpsSerial.ubxChecksum data = UbxCfg.ubxChecksum data) ∧
    (∀ cls id payload,
      GpsSerial.buildUbxMessage cls id payload = UbxCfg.buildUbxMessage cls id payload) :=
  ⟨fun _ => rfl, fun _ _ _ => rfl⟩

end ScoutGps
